import Mathlib

/-!
Shallow embedding of `libraries/AP_Module/AP_Module.cpp` (ArduPilot external
module support): module discovery (`init`), symbol resolution (`module_scan`),
the per-hook-type registries (`hooks`), and the five dispatch operations
(`call_hook_setup_start`, `call_hook_setup_complete`, `call_hook_AHRS_update`,
`call_hook_gyro_sample`, `call_hook_accel_sample`).

Modelling conventions:
* resolved symbols (the `void *` returned by `dlsym`) are an abstract type `σ`;
* a loaded module is its symbol table, a function `String → Option σ`
  (the result of `dlsym` on each name); `dlopen` failure is `none`;
* float values are modelled as exact rationals `ℚ`, machine integers as `Int`
  or `Nat`;
* the external collaborators (`AP_HAL::micros64`, the AHRS navigation source,
  `Quaternion::from_rotation_matrix`) are parameters of the dispatch
  functions; reads of the navigation source are recorded in an event list;
* each dispatch function threads the registry state through and returns it,
  together with the snapshot it built (if any) and the ordered list of
  entry-point invocations it performed.
-/

namespace APModule

/-- `NUM_HOOKS`: the number of hook types (enum `ModuleHooks`). -/
abbrev NUM_HOOKS : Nat := 5

/-- Index of a hook type in the global `hooks` array. -/
abbrev HookIdx := Fin NUM_HOOKS

def HOOK_SETUP_START : HookIdx := 0
def HOOK_SETUP_COMPLETE : HookIdx := 1
def HOOK_AHRS_UPDATE : HookIdx := 2
def HOOK_GYRO_SAMPLE : HookIdx := 3
def HOOK_ACCEL_SAMPLE : HookIdx := 4

/-- `AP_Module::hook_names`: the five literal exported-symbol names probed
in each module, in hook-index order. -/
def hook_names : HookIdx → String
  | 0 => "hook_setup_start"
  | 1 => "hook_setup_complete"
  | 2 => "hook_AHRS_update"
  | 3 => "hook_gyro_sample"
  | 4 => "hook_accel_sample"

/-- The global registry `AP_Module::hooks`: one singly linked list of resolved
symbols per hook type.  A linked list with head insertion is a `List`;
`h->next = hooks[i]; hooks[i] = h` is prepending. -/
abbrev Registry (σ : Type) := HookIdx → List σ

/-- The registry before any scanning: five empty lists (zero-initialised
globals). -/
def emptyRegistry (σ : Type) : Registry σ := fun _ => []

/-- The index sequence of the `for (uint16_t i=0; i<NUM_HOOKS; i++)` loop in
`module_scan`. -/
def hook_indexes : List HookIdx := [0, 1, 2, 3, 4]

/-- The body of the loop in `module_scan` over hook indexes: for each index `i`,
probe the module (`m i` is the `dlsym` result for `hook_names[i]`); on a hit,
prepend the symbol to list `i` and set `found_hook`. -/
def scan_hooks (m : HookIdx → Option σ) :
    List HookIdx → Registry σ → Bool → Registry σ × Bool
  | [], hooks, found_hook => (hooks, found_hook)
  | i :: rest, hooks, found_hook =>
    match m i with
    | some s =>
        scan_hooks m rest (fun j => if j = i then s :: hooks j else hooks j) true
    | none => scan_hooks m rest hooks found_hook

/-- `AP_Module::module_scan`: `dlopen` the module (`mod = none` models
`dlopen` failure, in which case the function prints a diagnostic and returns
with no effect).  On success, probe all five hook names and register each hit.
The returned `Bool` is true iff the module stays loaded (`found_hook`; when
false the code calls `dlclose`). -/
def module_scan (mod : Option (String → Option σ)) (hooks : Registry σ) :
    Registry σ × Bool :=
  match mod with
  | none => (hooks, false)
  | some m => scan_hooks (fun i => m (hook_names i)) hook_indexes hooks false

/-- `strrchr(name, '.')`: the suffix of `name` starting at the last `'.'`,
or `none` when `name` contains no dot. -/
def strrchr_dot : List Char → Option (List Char)
  | [] => none
  | c :: rest =>
    match strrchr_dot rest with
    | some s => some s
    | none => if c = '.' then some (c :: rest) else none

/-- The filter in the directory loop of `AP_Module::init`: keep an entry iff
`strrchr(d_name, '.')` is non-null and `strcmp(extension, ".so") == 0`. -/
def wants_load (name : List Char) : Bool :=
  match strrchr_dot name with
  | some ext => ext = ['.', 's', 'o']
  | none => false

/-- `AP_Module::init`: open the directory (`dir = none` models `opendir`
failure, which returns at once).  For each entry whose name passes the
`".so"` filter, build the full path with `asprintf` (`mkpath name = none`
models `asprintf` failure, which skips the entry) and scan it.  `mods` maps
a path to the `dlopen` outcome for the file there.  Returns the final
registry and the ordered list of paths handed to `module_scan`. -/
def init (dir : Option (List (List Char)))
    (mkpath : List Char → Option (List Char))
    (mods : List Char → Option (String → Option σ))
    (hooks : Registry σ) : Registry σ × List (List Char) :=
  match dir with
  | none => (hooks, [])
  | some entries =>
    entries.foldl
      (fun st name =>
        if wants_load name then
          match mkpath name with
          | none => st
          | some path => ((module_scan (mods path) st.1).1, st.2 ++ [path])
        else st)
      (hooks, [])

/-- Snapshot version constants.  Modelled from the spec: their numeric values
live in `AP_Module_Structures.h`, which is not among the sources here; the
spec only requires each to be a fixed per-type constant, so the values below
are immaterial placeholders. -/
def AHRS_state_version : Nat := 1

/-- See `AHRS_state_version`. -/
def gyro_sample_version : Nat := 1

/-- See `AHRS_state_version`. -/
def accel_sample_version : Nat := 1

/-- The `AHRS_status` values assigned in `call_hook_AHRS_update`. -/
inductive AHRS_status : Type
  | AHRS_STATUS_INITIALISING
  | AHRS_STATUS_HEALTHY
  | AHRS_STATUS_UNHEALTHY
deriving DecidableEq, Repr

/-- The `state.origin` sub-structure of `AHRS_state`: flag plus location
(lat/lon in 1e-7 degree integers, altitude in meters). -/
structure OriginField where
  initialised : Bool
  latitude : Int
  longitude : Int
  altitude : ℚ
deriving DecidableEq, Repr

/-- The `state.position` sub-structure of `AHRS_state`. -/
structure PositionField where
  available : Bool
  latitude : Int
  longitude : Int
  altitude : ℚ
deriving DecidableEq, Repr

/-- The `AHRS_state` snapshot structure passed to `hook_AHRS_update` entry
points. -/
structure AHRS_state where
  structure_version : Nat
  time_us : Nat
  status : AHRS_status
  quat : Fin 4 → ℚ
  eulers : Fin 3 → ℚ
  origin : OriginField
  position : PositionField
  relative_position : Fin 3 → ℚ
  gyro_rate : Fin 3 → ℚ
  accel_ef : Fin 3 → ℚ

/-- `struct AHRS_state state {};` — the zero-initialised snapshot the
dispatch function starts from. -/
def AHRS_state.zeroInit : AHRS_state where
  structure_version := 0
  time_us := 0
  status := .AHRS_STATUS_INITIALISING
  quat := fun _ => 0
  eulers := fun _ => 0
  origin := { initialised := false, latitude := 0, longitude := 0, altitude := 0 }
  position := { available := false, latitude := 0, longitude := 0, altitude := 0 }
  relative_position := fun _ => 0
  gyro_rate := fun _ => 0
  accel_ef := fun _ => 0

/-- A `Location` as read from the navigation source: lat/lon in 1e-7 degree
integers and `alt` in centimeters (integer). -/
structure Location where
  lat : Int
  lng : Int
  alt : Int
deriving DecidableEq, Repr

/-- The navigation-state source (`const AP_AHRS_NavEKF &ahrs`) as the
dispatch code observes it: readiness/health flags, the body-to-NED rotation
matrix, the cached euler angles, the optional origin / position /
relative-position accessors (returning `false` is `none`), and the gyro and
earth-frame acceleration vector accessors. -/
structure AHRS_source where
  initialised : Bool
  healthy : Bool
  get_rotation_body_to_ned : Fin 3 → Fin 3 → ℚ
  roll : ℚ
  pitch : ℚ
  yaw : ℚ
  get_origin : Option Location
  get_position : Option Location
  get_relative_position_NED : Option (Fin 3 → ℚ)
  get_gyro : Fin 3 → ℚ
  get_accel_ef : Fin 3 → ℚ

/-- One read performed on the navigation source by `call_hook_AHRS_update`. -/
inductive ReadEvent : Type
  | initialised
  | healthy
  | get_rotation_body_to_ned
  | get_origin
  | get_position
  | get_relative_position_NED
  | get_gyro
  | get_accel_ef
deriving DecidableEq, Repr

/-- The ordered list of reads `call_hook_AHRS_update` performs on the source
when it does build a snapshot: `initialised()` first, `healthy()` only in the
`else` branch, then the rotation, origin, position, relative-position, gyro
and accel accessors. -/
def AHRS_reads (ahrs : AHRS_source) : List ReadEvent :=
  [ReadEvent.initialised]
    ++ (if ahrs.initialised then [ReadEvent.healthy] else [])
    ++ [ReadEvent.get_rotation_body_to_ned, ReadEvent.get_origin,
        ReadEvent.get_position, ReadEvent.get_relative_position_NED,
        ReadEvent.get_gyro, ReadEvent.get_accel_ef]

/-- The snapshot-construction part of `call_hook_AHRS_update` (lines 137-190):
starts from the zero-initialised struct and performs each assignment in
source order.  `from_rotation_matrix` (external math library) is a parameter;
`now` is the `AP_HAL::micros64()` result.  Note lines 188-190 of the source:
all three `accel_ef` lanes are assigned `accel_ef[0]`. -/
def build_AHRS_state (from_rotation_matrix : (Fin 3 → Fin 3 → ℚ) → Fin 4 → ℚ)
    (now : Nat) (ahrs : AHRS_source) : AHRS_state :=
  let st0 := AHRS_state.zeroInit
  let st1 := { st0 with structure_version := AHRS_state_version, time_us := now }
  let st2 := { st1 with
    status :=
      if !ahrs.initialised then AHRS_status.AHRS_STATUS_INITIALISING
      else if ahrs.healthy then AHRS_status.AHRS_STATUS_HEALTHY
      else AHRS_status.AHRS_STATUS_UNHEALTHY }
  let q := from_rotation_matrix ahrs.get_rotation_body_to_ned
  let st3 := { st2 with quat := fun i => q i }
  let st4 := { st3 with
    eulers := fun i =>
      match i with
      | 0 => ahrs.roll
      | 1 => ahrs.pitch
      | 2 => ahrs.yaw }
  let st5 :=
    match ahrs.get_origin with
    | some loc => { st4 with
        origin := { initialised := true, latitude := loc.lat,
                    longitude := loc.lng, altitude := (loc.alt : ℚ) * (1 / 100) } }
    | none => st4
  let st6 :=
    match ahrs.get_position with
    | some loc => { st5 with
        position := { available := true, latitude := loc.lat,
                      longitude := loc.lng, altitude := (loc.alt : ℚ) * (1 / 100) } }
    | none => st5
  let st7 :=
    match ahrs.get_relative_position_NED with
    | some pos => { st6 with relative_position := fun i => pos i }
    | none => st6
  let st8 := { st7 with gyro_rate := fun i => ahrs.get_gyro i }
  let accel_ef := ahrs.get_accel_ef
  { st8 with
    accel_ef := fun i =>
      match i with
      | 0 => accel_ef 0
      | 1 => accel_ef 0
      | 2 => accel_ef 0 }

/-- The `gyro_sample` snapshot structure. -/
structure gyro_sample where
  structure_version : Nat
  time_us : Nat
  inst : Nat
  delta_time : ℚ
  gyro : Fin 3 → ℚ

/-- The `accel_sample` snapshot structure. -/
structure accel_sample where
  structure_version : Nat
  time_us : Nat
  inst : Nat
  delta_time : ℚ
  accel : Fin 3 → ℚ

/-- The dispatch loop `for (h=hooks[i]; h; h=h->next) fn(...)`: walks the
registered list, invoking each entry point in list order (`mk s` records the
invocation of symbol `s` with its argument), threading the registry state
through untouched. -/
def run_hooks_loop (st : Registry σ) (mk : σ → κ) :
    List σ → List κ → Registry σ × List κ
  | [], calls => (st, calls)
  | h :: t, calls => run_hooks_loop st mk t (calls ++ [mk h])

/-- `AP_Module::call_hook_setup_start`: read the clock, then invoke every
`HOOK_SETUP_START` entry point with the timestamp.  Returns the registry and
the invocation list. -/
def call_hook_setup_start (now : Nat) (st : Registry σ) :
    Registry σ × List (σ × Nat) :=
  run_hooks_loop st (fun s => (s, now)) (st HOOK_SETUP_START) []

/-- `AP_Module::call_hook_setup_complete`: as `call_hook_setup_start` for
`HOOK_SETUP_COMPLETE`. -/
def call_hook_setup_complete (now : Nat) (st : Registry σ) :
    Registry σ × List (σ × Nat) :=
  run_hooks_loop st (fun s => (s, now)) (st HOOK_SETUP_COMPLETE) []

/-- `AP_Module::call_hook_AHRS_update`: if the `HOOK_AHRS_UPDATE` list is
null, return at once — no snapshot, no source reads, no calls.  Otherwise
build the snapshot, record the source reads, and invoke every registered
entry point with the snapshot, in list order.  Result: (registry, snapshot
built, reads performed on the source, invocations). -/
def call_hook_AHRS_update (from_rotation_matrix : (Fin 3 → Fin 3 → ℚ) → Fin 4 → ℚ)
    (now : Nat) (st : Registry σ) (ahrs : AHRS_source) :
    Registry σ × Option AHRS_state × List ReadEvent × List (σ × AHRS_state) :=
  match st HOOK_AHRS_UPDATE with
  | [] => (st, none, [], [])
  | _ :: _ =>
    let state := build_AHRS_state from_rotation_matrix now ahrs
    let r := run_hooks_loop st (fun s => (s, state)) (st HOOK_AHRS_UPDATE) []
    (r.1, some state, AHRS_reads ahrs, r.2)

/-- `AP_Module::call_hook_gyro_sample`: empty-list short circuit, else build
the `gyro_sample` snapshot and invoke every entry point with it. -/
def call_hook_gyro_sample (now : Nat) (st : Registry σ)
    (inst : Nat) (dt : ℚ) (gyro : Fin 3 → ℚ) :
    Registry σ × Option gyro_sample × List (σ × gyro_sample) :=
  match st HOOK_GYRO_SAMPLE with
  | [] => (st, none, [])
  | _ :: _ =>
    let state : gyro_sample :=
      { structure_version := gyro_sample_version, time_us := now,
        inst := inst, delta_time := dt, gyro := fun i => gyro i }
    let r := run_hooks_loop st (fun s => (s, state)) (st HOOK_GYRO_SAMPLE) []
    (r.1, some state, r.2)

/-- `AP_Module::call_hook_accel_sample`: empty-list short circuit, else build
the `accel_sample` snapshot and invoke every entry point with it. -/
def call_hook_accel_sample (now : Nat) (st : Registry σ)
    (inst : Nat) (dt : ℚ) (accel : Fin 3 → ℚ) :
    Registry σ × Option accel_sample × List (σ × accel_sample) :=
  match st HOOK_ACCEL_SAMPLE with
  | [] => (st, none, [])
  | _ :: _ =>
    let state : accel_sample :=
      { structure_version := accel_sample_version, time_us := now,
        inst := inst, delta_time := dt, accel := fun i => accel i }
    let r := run_hooks_loop st (fun s => (s, state)) (st HOOK_ACCEL_SAMPLE) []
    (r.1, some state, r.2)

/-! ### Concrete fixtures used by the witness theorems -/

/-- A concrete stand-in for the external `Quaternion::from_rotation_matrix`. -/
def fr0 : (Fin 3 → Fin 3 → ℚ) → Fin 4 → ℚ := fun _ _ => 0

/-- A concrete navigation source with everything zero / unavailable. -/
def src0 : AHRS_source where
  initialised := false
  healthy := false
  get_rotation_body_to_ned := fun _ _ => 0
  roll := 0
  pitch := 0
  yaw := 0
  get_origin := none
  get_position := none
  get_relative_position_NED := none
  get_gyro := fun _ => 0
  get_accel_ef := fun _ => 0

/-- A source whose earth-frame acceleration is (1, 2, 3). -/
def src_accel : AHRS_source :=
  { src0 with
    get_accel_ef := fun i =>
      match i with
      | 0 => 1
      | 1 => 2
      | 2 => 3 }

/-- A source reporting an origin at altitude 339 centimeters. -/
def src_origin : AHRS_source :=
  { src0 with get_origin := some { lat := 1, lng := 2, alt := 339 } }

/-- A source with cached roll 1. -/
def src_roll1 : AHRS_source := { src0 with roll := 1 }

/-- A registry with the same single symbol registered for every hook type. -/
def oneHookRegistry : Registry Nat := fun _ => [7]

/-! ### Helper lemmas -/

/-- The dispatch loop never writes the registry. -/
theorem run_hooks_loop_fst (st : Registry σ) (mk : σ → κ) :
    ∀ (l : List σ) (calls : List κ), (run_hooks_loop st mk l calls).1 = st := by
  intro l
  induction l with
  | nil => intro calls; rfl
  | cons h t ih => intro calls; simpa [run_hooks_loop] using ih (calls ++ [mk h])

/-- The dispatch loop invokes exactly the listed symbols, in list order. -/
theorem run_hooks_loop_snd (st : Registry σ) (mk : σ → κ) :
    ∀ (l : List σ) (calls : List κ),
      (run_hooks_loop st mk l calls).2 = calls ++ l.map mk := by
  intro l
  induction l with
  | nil => intro calls; simp [run_hooks_loop]
  | cons h t ih =>
    intro calls
    simp [run_hooks_loop, ih (calls ++ [mk h])]

/-- An index the scan loop never visits keeps its list. -/
theorem scan_hooks_fst_not_mem (m : HookIdx → Option σ) :
    ∀ (idxs : List HookIdx) (hooks : Registry σ) (f : Bool) (j : HookIdx),
      j ∉ idxs → (scan_hooks m idxs hooks f).1 j = hooks j := by
  intro idxs
  induction idxs with
  | nil => intro hooks f j _; rfl
  | cons i rest ih =>
    intro hooks f j hj
    have hji : j ≠ i := fun h => hj (h ▸ List.mem_cons_self i rest)
    have hjr : j ∉ rest := fun h => hj (List.mem_cons_of_mem i h)
    cases hmi : m i with
    | some s =>
      simp only [scan_hooks, hmi]
      rw [ih _ _ _ hjr]
      simp [hji]
    | none =>
      simp only [scan_hooks, hmi]
      exact ih _ _ _ hjr

/-- After one pass of the scan loop over distinct indexes, the list at a visited index
has gained exactly the symbol the module resolves for it (when resolved) at the
head. -/
theorem scan_hooks_fst_mem (m : HookIdx → Option σ) :
    ∀ (idxs : List HookIdx) (hooks : Registry σ) (f : Bool) (j : HookIdx),
      idxs.Nodup → j ∈ idxs →
      (scan_hooks m idxs hooks f).1 j =
        match m j with
        | some s => s :: hooks j
        | none => hooks j := by
  intro idxs
  induction idxs with
  | nil => intro hooks f j _ hj; cases hj
  | cons i rest ih =>
    intro hooks f j hnd hj
    have hnd2 := List.nodup_cons.mp hnd
    rcases List.mem_cons.mp hj with hji | hjr
    · subst hji
      cases hmj : m j with
      | some s =>
        simp only [scan_hooks, hmj]
        rw [scan_hooks_fst_not_mem m rest _ _ _ hnd2.1]
        simp
      | none =>
        simp only [scan_hooks, hmj]
        rw [scan_hooks_fst_not_mem m rest _ _ _ hnd2.1]
    · have hji : j ≠ i := fun h => hnd2.1 (h ▸ hjr)
      cases hmi : m i with
      | some s =>
        simp only [scan_hooks, hmi]
        rw [ih _ _ _ hnd2.2 hjr]
        cases m j <;> simp [hji]
      | none =>
        simp only [scan_hooks, hmi]
        exact ih _ _ _ hnd2.2 hjr

/-- A scan pass in which no probed index resolves changes nothing and leaves
`found_hook` as it was. -/
theorem scan_hooks_none (m : HookIdx → Option σ) :
    ∀ (idxs : List HookIdx) (hooks : Registry σ) (f : Bool),
      (∀ i ∈ idxs, m i = none) → scan_hooks m idxs hooks f = (hooks, f) := by
  intro idxs
  induction idxs with
  | nil => intro hooks f _; rfl
  | cons i rest ih =>
    intro hooks f h
    have hi := h i (List.mem_cons_self i rest)
    simp only [scan_hooks, hi]
    exact ih hooks f (fun k hk => h k (List.mem_cons_of_mem i hk))

/-- Every hook index is visited by the scan loop. -/
theorem mem_hook_indexes (j : HookIdx) : j ∈ hook_indexes := by
  fin_cases j <;> decide

/-- The index list of the scan loop has no duplicates. -/
theorem hook_indexes_nodup : hook_indexes.Nodup := by decide

/-- `strrchr` returns a suffix of its argument. -/
theorem strrchr_dot_isSuffix :
    ∀ (name s : List Char), strrchr_dot name = some s → s <:+ name := by
  intro name
  induction name with
  | nil => intro s h; cases h
  | cons c rest ih =>
    intro s h
    simp only [strrchr_dot] at h
    cases hr : strrchr_dot rest with
    | some t =>
      rw [hr] at h
      cases h
      exact (ih _ hr).trans (List.suffix_cons c rest)
    | none =>
      rw [hr] at h
      by_cases hc : c = '.'
      · subst hc
        simp only [if_pos rfl] at h
        cases h
        exact List.suffix_refl _
      · simp [hc] at h

/-- The first character returned by `strrchr` is the dot it found. -/
theorem strrchr_dot_head :
    ∀ (name s : List Char), strrchr_dot name = some s →
      ∃ t, s = '.' :: t := by
  intro name
  induction name with
  | nil => intro s h; cases h
  | cons c rest ih =>
    intro s h
    simp only [strrchr_dot] at h
    cases hr : strrchr_dot rest with
    | some t => rw [hr] at h; cases h; exact ih _ hr
    | none =>
      rw [hr] at h
      by_cases hc : c = '.'
      · simp [hc] at h
        exact ⟨rest, by rw [← h]⟩
      · simp [hc] at h

/-- A name ending in `".so"` has that exact string as its last-dot suffix:
the two characters after that dot are `'s'` and `'o'`, so no later dot
exists. -/
theorem strrchr_dot_append_so :
    ∀ (xs : List Char), strrchr_dot (xs ++ ['.', 's', 'o']) = some ['.', 's', 'o'] := by
  intro xs
  induction xs with
  | nil => rfl
  | cons c rest ih =>
    show strrchr_dot (c :: (rest ++ ['.', 's', 'o'])) = _
    simp only [strrchr_dot, ih]

/-- The snapshot built by `call_hook_AHRS_update`, written as one record:
each field as the sequence of assignments in lines 137-190 leaves it. -/
theorem build_AHRS_state_eq (fr : (Fin 3 → Fin 3 → ℚ) → Fin 4 → ℚ)
    (now : Nat) (ahrs : AHRS_source) :
    build_AHRS_state fr now ahrs =
      { structure_version := AHRS_state_version
        time_us := now
        status :=
          if !ahrs.initialised then AHRS_status.AHRS_STATUS_INITIALISING
          else if ahrs.healthy then AHRS_status.AHRS_STATUS_HEALTHY
          else AHRS_status.AHRS_STATUS_UNHEALTHY
        quat := fun i => fr ahrs.get_rotation_body_to_ned i
        eulers := fun i =>
          match i with
          | 0 => ahrs.roll
          | 1 => ahrs.pitch
          | 2 => ahrs.yaw
        origin :=
          match ahrs.get_origin with
          | some loc => { initialised := true, latitude := loc.lat,
                          longitude := loc.lng, altitude := (loc.alt : ℚ) * (1 / 100) }
          | none => { initialised := false, latitude := 0, longitude := 0, altitude := 0 }
        position :=
          match ahrs.get_position with
          | some loc => { available := true, latitude := loc.lat,
                          longitude := loc.lng, altitude := (loc.alt : ℚ) * (1 / 100) }
          | none => { available := false, latitude := 0, longitude := 0, altitude := 0 }
        relative_position :=
          match ahrs.get_relative_position_NED with
          | some pos => fun i => pos i
          | none => fun _ => 0
        gyro_rate := fun i => ahrs.get_gyro i
        accel_ef := fun i =>
          match i with
          | 0 => ahrs.get_accel_ef 0
          | 1 => ahrs.get_accel_ef 0
          | 2 => ahrs.get_accel_ef 0 } := by
  cases hO : ahrs.get_origin <;> cases hP : ahrs.get_position <;>
    cases hR : ahrs.get_relative_position_NED <;>
    simp [build_AHRS_state, hO, hP, hR, AHRS_state.zeroInit]

/-! ### The claims -/

/-- C1: the claim says every lane of the earth-frame acceleration in the snapshot
is copied component-wise from `get_accel_ef`.  The code (lines 188-190)
assigns `accel_ef[0]` to all three lanes: on a source whose acceleration is
(1, 2, 3) the snapshot carries (1, 1, 1), so lanes 1 and 2 diverge from the
source.  The gyro copy just above is component-wise, making this an evident
copy-paste slip in the code. -/
theorem accel_ef_lanes_bug :
    (build_AHRS_state fr0 0 src_accel).accel_ef 0 = 1 ∧
    (build_AHRS_state fr0 0 src_accel).accel_ef 1 = 1 ∧
    (build_AHRS_state fr0 0 src_accel).accel_ef 2 = 1 ∧
    src_accel.get_accel_ef 1 = 2 ∧
    src_accel.get_accel_ef 2 = 3 ∧
    (build_AHRS_state fr0 0 src_accel).accel_ef 1 ≠ src_accel.get_accel_ef 1 := by
  refine ⟨rfl, rfl, rfl, rfl, rfl, ?_⟩
  show (1 : ℚ) ≠ 2
  norm_num

/-- C2: registration prepends and dispatch walks the list from the head, so
when modules A then B both export the symbol of hook `x`, the per-type list
after both scans holds the symbol of B, then that of A, then the earlier
contents, and the
dispatch loop invokes them in exactly that order (LIFO across modules). -/
theorem dispatch_order_lifo {σ : Type} (x : HookIdx)
    (mA mB : String → Option σ) (a b : σ) (hooks : Registry σ)
    (hA : mA (hook_names x) = some a) (hB : mB (hook_names x) = some b) :
    (module_scan (some mB) (module_scan (some mA) hooks).1).1 x
      = b :: a :: hooks x ∧
    (run_hooks_loop (module_scan (some mB) (module_scan (some mA) hooks).1).1
      (fun s => s)
      ((module_scan (some mB) (module_scan (some mA) hooks).1).1 x) []).2
      = b :: a :: hooks x := by
  have h1 : (module_scan (some mA) hooks).1 x = a :: hooks x := by
    show (scan_hooks _ hook_indexes hooks false).1 x = _
    rw [scan_hooks_fst_mem _ _ _ _ _ hook_indexes_nodup (mem_hook_indexes x)]
    simp [hA]
  have h2 : (module_scan (some mB) (module_scan (some mA) hooks).1).1 x
      = b :: a :: hooks x := by
    show (scan_hooks _ hook_indexes _ false).1 x = _
    rw [scan_hooks_fst_mem _ _ _ _ _ hook_indexes_nodup (mem_hook_indexes x)]
    simp [hB, h1]
  refine ⟨h2, ?_⟩
  rw [h2, run_hooks_loop_snd]
  simp

/-- C2 witness: modules exporting symbols 1 then 2 for `hook_setup_start`
into the empty registry give the list [2, 1] and that invocation order. -/
theorem dispatch_order_lifo_witness :
    (module_scan (some fun s => if s = "hook_setup_start" then some 2 else none)
      (module_scan (some fun s => if s = "hook_setup_start" then some 1 else none)
        (emptyRegistry Nat)).1).1 HOOK_SETUP_START = [2, 1] ∧
    (run_hooks_loop
      (module_scan (some fun s => if s = "hook_setup_start" then some 2 else none)
        (module_scan (some fun s => if s = "hook_setup_start" then some 1 else none)
          (emptyRegistry Nat)).1).1
      (fun s => s)
      ((module_scan (some fun s => if s = "hook_setup_start" then some 2 else none)
        (module_scan (some fun s => if s = "hook_setup_start" then some 1 else none)
          (emptyRegistry Nat)).1).1 HOOK_SETUP_START) []).2 = [2, 1] :=
  dispatch_order_lifo HOOK_SETUP_START _ _ 1 2 (emptyRegistry Nat)
    (by decide) (by decide)

/-- C3: with an empty `HOOK_AHRS_UPDATE` list, `call_hook_AHRS_update`
returns at once: registry untouched, no snapshot built, zero reads of the
navigation source, zero entry-point calls. -/
theorem ahrs_update_empty_short_circuit {σ : Type}
    (fr : (Fin 3 → Fin 3 → ℚ) → Fin 4 → ℚ) (now : Nat)
    (st : Registry σ) (ahrs : AHRS_source)
    (h : st HOOK_AHRS_UPDATE = []) :
    call_hook_AHRS_update fr now st ahrs = (st, none, [], []) := by
  simp [call_hook_AHRS_update, h]

/-- C3 witness: the empty registry short-circuits on a concrete source. -/
theorem ahrs_update_empty_short_circuit_witness :
    call_hook_AHRS_update fr0 0 (emptyRegistry Nat) src0
      = (emptyRegistry Nat, none, [], []) :=
  ahrs_update_empty_short_circuit fr0 0 (emptyRegistry Nat) src0 rfl

/-- C4: a module that loads but resolves none of the five hook symbol names
is not retained (`found_hook` stays false, so `dlclose` runs), every hook
list is exactly as before, and consequently any later dispatch invokes
exactly the entry points that were registered before — none from this
module. -/
theorem no_symbol_module_discarded {σ : Type}
    (m : String → Option σ) (hooks : Registry σ)
    (h : ∀ i : HookIdx, m (hook_names i) = none) :
    module_scan (some m) hooks = (hooks, false) ∧
    ∀ x : HookIdx,
      (run_hooks_loop (module_scan (some m) hooks).1 (fun s => s)
        ((module_scan (some m) hooks).1 x) []).2 = hooks x := by
  have h0 : module_scan (some m) hooks = (hooks, false) :=
    scan_hooks_none (fun i => m (hook_names i)) hook_indexes hooks false
      (fun i _ => h i)
  refine ⟨h0, fun x => ?_⟩
  rw [h0, run_hooks_loop_snd]
  simp

/-- C4 witness: a symbol-less module scanned into the empty registry leaves
it empty, is not retained, and `hook_setup_start` dispatch calls nobody. -/
theorem no_symbol_module_discarded_witness :
    module_scan (some fun _ => (none : Option Nat)) (emptyRegistry Nat)
      = (emptyRegistry Nat, false) ∧
    (run_hooks_loop (module_scan (some fun _ => (none : Option Nat))
        (emptyRegistry Nat)).1 (fun s => s)
      ((module_scan (some fun _ => (none : Option Nat))
        (emptyRegistry Nat)).1 HOOK_SETUP_START) []).2 = emptyRegistry Nat HOOK_SETUP_START :=
  ⟨(no_symbol_module_discarded _ (emptyRegistry Nat) (fun _ => rfl)).1,
   (no_symbol_module_discarded _ (emptyRegistry Nat) (fun _ => rfl)).2 HOOK_SETUP_START⟩

/-- C5: every snapshot handed to a registered entry point carries the fixed
version constant of its type: each invocation recorded by the three
snapshot-building dispatch operations pairs the symbol with a snapshot whose
`structure_version` is `AHRS_state_version`, `gyro_sample_version` or
`accel_sample_version` respectively, whatever the registry holds. -/
theorem snapshot_version_constant {σ : Type}
    (fr : (Fin 3 → Fin 3 → ℚ) → Fin 4 → ℚ) (now : Nat) (st : Registry σ)
    (ahrs : AHRS_source) (inst : Nat) (dt : ℚ) (g a : Fin 3 → ℚ) :
    (∀ p ∈ (call_hook_AHRS_update fr now st ahrs).2.2.2,
      (p : σ × AHRS_state).2.structure_version = AHRS_state_version) ∧
    (∀ p ∈ (call_hook_gyro_sample now st inst dt g).2.2,
      (p : σ × gyro_sample).2.structure_version = gyro_sample_version) ∧
    (∀ p ∈ (call_hook_accel_sample now st inst dt a).2.2,
      (p : σ × accel_sample).2.structure_version = accel_sample_version) := by
  refine ⟨?_, ?_, ?_⟩
  · intro p hp
    cases hE : st HOOK_AHRS_UPDATE with
    | nil => simp [call_hook_AHRS_update, hE] at hp
    | cons h t =>
      simp only [call_hook_AHRS_update, hE, run_hooks_loop_snd,
        List.nil_append, List.mem_map] at hp
      obtain ⟨s, hs, hps⟩ := hp
      rw [← hps, build_AHRS_state_eq]
  · intro p hp
    cases hE : st HOOK_GYRO_SAMPLE with
    | nil => simp [call_hook_gyro_sample, hE] at hp
    | cons h t =>
      simp only [call_hook_gyro_sample, hE, run_hooks_loop_snd,
        List.nil_append, List.mem_map] at hp
      obtain ⟨s, hs, hps⟩ := hp
      rw [← hps]
  · intro p hp
    cases hE : st HOOK_ACCEL_SAMPLE with
    | nil => simp [call_hook_accel_sample, hE] at hp
    | cons h t =>
      simp only [call_hook_accel_sample, hE, run_hooks_loop_snd,
        List.nil_append, List.mem_map] at hp
      obtain ⟨s, hs, hps⟩ := hp
      rw [← hps]

/-- C5 witness: with one registered symbol for every hook, each dispatched
snapshot carries the constant of its type. -/
theorem snapshot_version_constant_witness :
    (7, build_AHRS_state fr0 0 src0).2.structure_version = AHRS_state_version ∧
    (7, ({ structure_version := gyro_sample_version, time_us := 0, inst := 0,
           delta_time := 0, gyro := fun _ => 0 } : gyro_sample)).2.structure_version
      = gyro_sample_version ∧
    (7, ({ structure_version := accel_sample_version, time_us := 0, inst := 0,
           delta_time := 0, accel := fun _ => 0 } : accel_sample)).2.structure_version
      = accel_sample_version := by
  refine ⟨?_, ?_, ?_⟩
  · exact (snapshot_version_constant fr0 0 oneHookRegistry src0 0 0
      (fun _ => 0) (fun _ => 0)).1 _ (List.mem_singleton.mpr rfl)
  · exact (snapshot_version_constant fr0 0 oneHookRegistry src0 0 0
      (fun _ => 0) (fun _ => 0)).2.1 _ (List.mem_singleton.mpr rfl)
  · exact (snapshot_version_constant fr0 0 oneHookRegistry src0 0 0
      (fun _ => 0) (fun _ => 0)).2.2 _ (List.mem_singleton.mpr rfl)

/-- C6: in the snapshot `call_hook_AHRS_update` builds, a source with no
origin leaves the origin block zero-initialised (flag false, lat/lon/alt
zero); with an origin, the snapshot altitude is the centimeter-integer
altitude of the source times 0.01, i.e. divided by 100 (meters). -/
theorem origin_fields_and_altitude
    (fr : (Fin 3 → Fin 3 → ℚ) → Fin 4 → ℚ) (now : Nat) (ahrs : AHRS_source) :
    (ahrs.get_origin = none →
      (build_AHRS_state fr now ahrs).origin.initialised = false ∧
      (build_AHRS_state fr now ahrs).origin.latitude = 0 ∧
      (build_AHRS_state fr now ahrs).origin.longitude = 0 ∧
      (build_AHRS_state fr now ahrs).origin.altitude = 0) ∧
    (∀ loc : Location, ahrs.get_origin = some loc →
      (build_AHRS_state fr now ahrs).origin.initialised = true ∧
      (build_AHRS_state fr now ahrs).origin.altitude = (loc.alt : ℚ) / 100) := by
  rw [build_AHRS_state_eq]
  constructor
  · intro h
    refine ⟨?_, ?_, ?_, ?_⟩ <;> simp [h]
  · intro loc h
    refine ⟨by simp [h], ?_⟩
    simp only [h]
    exact mul_one_div (loc.alt : ℚ) 100

/-- C6 witness: no origin gives the zero block; an origin at 339 cm gives
altitude 339/100 m. -/
theorem origin_fields_and_altitude_witness :
    ((build_AHRS_state fr0 0 src0).origin.initialised = false ∧
     (build_AHRS_state fr0 0 src0).origin.latitude = 0 ∧
     (build_AHRS_state fr0 0 src0).origin.longitude = 0 ∧
     (build_AHRS_state fr0 0 src0).origin.altitude = 0) ∧
    ((build_AHRS_state fr0 0 src_origin).origin.initialised = true ∧
     (build_AHRS_state fr0 0 src_origin).origin.altitude = (339 : ℚ) / 100) :=
  ⟨(origin_fields_and_altitude fr0 0 src0).1 rfl,
   (origin_fields_and_altitude fr0 0 src_origin).2 { lat := 1, lng := 2, alt := 339 } rfl⟩

/-- C8: the euler fields of the snapshot are the cached roll/pitch/yaw of
the source, while its quaternion is derived in the same call from the
rotation matrix of the source; whenever recomputing eulers from that very
quaternion (by any conversion `eulerOf`) disagrees with the cached values,
the euler and quaternion fields of the one snapshot are mutually
inconsistent. -/
theorem eulers_cached_not_recomputed
    (fr : (Fin 3 → Fin 3 → ℚ) → Fin 4 → ℚ) (now : Nat) (ahrs : AHRS_source)
    (eulerOf : (Fin 4 → ℚ) → Fin 3 → ℚ)
    (h : eulerOf (fr ahrs.get_rotation_body_to_ned)
          ≠ (build_AHRS_state fr now ahrs).eulers) :
    (build_AHRS_state fr now ahrs).eulers 0 = ahrs.roll ∧
    (build_AHRS_state fr now ahrs).eulers 1 = ahrs.pitch ∧
    (build_AHRS_state fr now ahrs).eulers 2 = ahrs.yaw ∧
    (build_AHRS_state fr now ahrs).quat = fr ahrs.get_rotation_body_to_ned ∧
    eulerOf ((build_AHRS_state fr now ahrs).quat)
      ≠ (build_AHRS_state fr now ahrs).eulers := by
  have hq : (build_AHRS_state fr now ahrs).quat = fr ahrs.get_rotation_body_to_ned := by
    rw [build_AHRS_state_eq]
  refine ⟨?_, ?_, ?_, hq, ?_⟩
  · rw [build_AHRS_state_eq]
  · rw [build_AHRS_state_eq]
  · rw [build_AHRS_state_eq]
  · rw [hq]
    exact h

/-- C8 witness: a zero quaternion whose conversion yields zero eulers,
against a source with cached roll 1, gives one snapshot whose euler and
quaternion fields disagree. -/
theorem eulers_cached_not_recomputed_witness :
    (build_AHRS_state fr0 0 src_roll1).eulers 0 = src_roll1.roll ∧
    (build_AHRS_state fr0 0 src_roll1).eulers 1 = src_roll1.pitch ∧
    (build_AHRS_state fr0 0 src_roll1).eulers 2 = src_roll1.yaw ∧
    (build_AHRS_state fr0 0 src_roll1).quat
      = fr0 src_roll1.get_rotation_body_to_ned ∧
    (fun _ _ => (0 : ℚ)) ((build_AHRS_state fr0 0 src_roll1).quat)
      ≠ (build_AHRS_state fr0 0 src_roll1).eulers :=
  eulers_cached_not_recomputed fr0 0 src_roll1 (fun _ _ => 0)
    (by
      intro heq
      have h0 := congrFun heq 0
      have : (0 : ℚ) = 1 := by
        calc (0 : ℚ) = (build_AHRS_state fr0 0 src_roll1).eulers 0 := h0
        _ = 1 := rfl
      norm_num at this)

/-- C9: every dispatch operation returns the registry exactly as it received
it — dispatch only reads the per-type lists, never prepends to, mutates or
removes from them. -/
theorem dispatch_preserves_registry {σ : Type} (now : Nat) (st : Registry σ)
    (fr : (Fin 3 → Fin 3 → ℚ) → Fin 4 → ℚ) (ahrs : AHRS_source)
    (inst : Nat) (dt : ℚ) (g a : Fin 3 → ℚ) :
    (call_hook_setup_start now st).1 = st ∧
    (call_hook_setup_complete now st).1 = st ∧
    (call_hook_AHRS_update fr now st ahrs).1 = st ∧
    (call_hook_gyro_sample now st inst dt g).1 = st ∧
    (call_hook_accel_sample now st inst dt a).1 = st := by
  refine ⟨run_hooks_loop_fst _ _ _ _, run_hooks_loop_fst _ _ _ _, ?_, ?_, ?_⟩
  · cases hE : st HOOK_AHRS_UPDATE with
    | nil => simp [call_hook_AHRS_update, hE]
    | cons h t => simp [call_hook_AHRS_update, hE, run_hooks_loop_fst]
  · cases hE : st HOOK_GYRO_SAMPLE with
    | nil => simp [call_hook_gyro_sample, hE]
    | cons h t => simp [call_hook_gyro_sample, hE, run_hooks_loop_fst]
  · cases hE : st HOOK_ACCEL_SAMPLE with
    | nil => simp [call_hook_accel_sample, hE]
    | cons h t => simp [call_hook_accel_sample, hE, run_hooks_loop_fst]

/-- C7: `init` attempts to load exactly the entries whose name ends with the
exact, case-sensitive suffix ".so" (the last-dot-suffix test of the code
coincides with the ends-with test), and on the directory
{"a.so", "b.txt", "c.SO"} exactly one load attempt occurs, for "a.so". -/
theorem init_so_suffix_filter :
    (∀ name : List Char, wants_load name = true ↔ ['.', 's', 'o'] <:+ name) ∧
    (init (some [['a', '.', 's', 'o'], ['b', '.', 't', 'x', 't'], ['c', '.', 'S', 'O']])
      (fun name => some (['m', '/'] ++ name))
      (fun _ => (none : Option (String → Option Nat)))
      (emptyRegistry Nat)).2 = [['m', '/', 'a', '.', 's', 'o']] := by
  constructor
  · intro name
    constructor
    · intro hw
      unfold wants_load at hw
      cases hs : strrchr_dot name with
      | none => rw [hs] at hw; cases hw
      | some ext =>
        rw [hs] at hw
        have hext : ext = ['.', 's', 'o'] := by
          simpa using hw
        rw [← hext]
        exact strrchr_dot_isSuffix name ext hs
    · intro hsuf
      obtain ⟨t, ht⟩ := hsuf
      rw [← ht]
      unfold wants_load
      rw [strrchr_dot_append_so]
      simp
  · decide

/-- C7 witness: a name ending in ".so" passes the filter. -/
theorem init_so_suffix_filter_witness :
    wants_load ['x', '.', 's', 'o'] = true :=
  (init_so_suffix_filter.1 ['x', '.', 's', 'o']).mpr ⟨['x'], rfl⟩

/-- C10: `init` has no failure channel: an unopenable directory returns with
the registry untouched and no load attempts; an `asprintf` failure for one
entry skips exactly that entry, discovery continuing over the rest. -/
theorem init_nonfatal {σ : Type}
    (mkpath : List Char → Option (List Char))
    (mods : List Char → Option (String → Option σ))
    (hooks : Registry σ) (es1 es2 : List (List Char)) (bad : List Char)
    (hbad : mkpath bad = none) :
    init none mkpath mods hooks = (hooks, []) ∧
    init (some (es1 ++ bad :: es2)) mkpath mods hooks
      = init (some (es1 ++ es2)) mkpath mods hooks := by
  refine ⟨rfl, ?_⟩
  show (es1 ++ bad :: es2).foldl _ (hooks, []) = (es1 ++ es2).foldl _ (hooks, [])
  rw [List.foldl_append, List.foldl_append, List.foldl_cons]
  cases hw : wants_load bad
  · simp [hw]
  · simp [hw, hbad]

/-- C10 witness: a missing directory leaves the empty registry; a failed
path construction for "b.so" skips it, leaving only the attempt for "a.so". -/
theorem init_nonfatal_witness :
    init none (fun n => if n = ['b', '.', 's', 'o'] then none else some n)
      (fun _ => (none : Option (String → Option Nat))) (emptyRegistry Nat)
      = (emptyRegistry Nat, []) ∧
    init (some ([['a', '.', 's', 'o']] ++ ['b', '.', 's', 'o'] :: []))
      (fun n => if n = ['b', '.', 's', 'o'] then none else some n)
      (fun _ => (none : Option (String → Option Nat))) (emptyRegistry Nat)
      = init (some ([['a', '.', 's', 'o']] ++ []))
        (fun n => if n = ['b', '.', 's', 'o'] then none else some n)
        (fun _ => (none : Option (String → Option Nat))) (emptyRegistry Nat) :=
  init_nonfatal (fun n => if n = ['b', '.', 's', 'o'] then none else some n)
    (fun _ => (none : Option (String → Option Nat))) (emptyRegistry Nat)
    [['a', '.', 's', 'o']] [] ['b', '.', 's', 'o'] (by decide)

end APModule
